import Mathlib

/-!
Verification development for the `versatrans_my_stop` bus-tracking client.

The repository contains two near-identical Python modules; following the
specification's design notes, the newer, stricter variant `vst_mystop.py` is
the one embedded here.  JSON payloads are modelled by the inductive type
`Json`; Python's dynamically-typed dictionary/list operations are modelled by
functions returning `Except PyErr _`, where `PyErr` names the Python exception
class an operation raises.  Python's `None` and JSON `null` are identified
(as they are by `json.loads`), both modelled by `Json.null`.  Python floats
are modelled by rational numbers for the exact arithmetic of
`degrees_to_direction`, and by real numbers for the trigonometric
`haversine_distance`.
-/

/-- JSON values, as produced by `response.json()` in the source. -/
inductive Json where
  | null
  | bool (b : Bool)
  | num (q : ℚ)
  | str (s : String)
  | arr (elems : List Json)
  | obj (fields : List (String × Json))

/-- Python exception classes raised by the operations the source uses.
`requestException` stands for `requests.RequestException` and its subclasses
(transport failures, `raise_for_status` HTTP errors, JSON decode errors). -/
inductive PyErr where
  | keyError
  | typeError
  | indexError
  | attributeError
  | requestException
deriving DecidableEq

/-- Python truthiness of a JSON value (`bool(x)`). -/
def truthy : Json → Bool
  | .null => false
  | .bool b => b
  | .num q => if q = 0 then false else true
  | .str s => !s.toList.isEmpty
  | .arr xs => !xs.isEmpty
  | .obj fs => !fs.isEmpty

/-- Test for `Json.null`, i.e. Python's `x is None`. -/
def isNull : Json → Bool
  | .null => true
  | _ => false

/-- First-match lookup in an object's field list.  JSON objects produced by
`json.loads` have unique keys, on which first-match and last-match lookup
agree. -/
def lookupField : List (String × Json) → String → Option Json
  | [], _ => none
  | (k, v) :: rest, key => if k = key then some v else lookupField rest key

/-- Whether the character list `pat` is an initial segment of `s`. -/
def headMatches : List Char → List Char → Bool
  | [], _ => true
  | _ :: _, [] => false
  | p :: ps, c :: cs => (p == c) && headMatches ps cs

/-- Whether `pat` occurs as a contiguous run inside `s`. -/
def subSearch (pat : List Char) : List Char → Bool
  | [] => pat.isEmpty
  | c :: rest => headMatches pat (c :: rest) || subSearch pat rest

/-- Python's substring test `pat in s`. -/
def containsSub (s pat : String) : Bool := subSearch pat.toList s.toList

/-- Python `d.get(key, dflt)`: defined only on dictionaries; every other
value raises `AttributeError`. -/
def pyGet (j : Json) (key : String) (dflt : Json) : Except PyErr Json :=
  match j with
  | .obj fs => .ok ((lookupField fs key).getD dflt)
  | _ => .error .attributeError

/-- Python `key in d` for a string `key`: key membership on dictionaries,
element membership on lists, substring test on strings, `TypeError`
otherwise. -/
def pyContains (j : Json) (key : String) : Except PyErr Bool :=
  match j with
  | .obj fs => .ok (lookupField fs key).isSome
  | .arr xs => .ok (xs.any fun e => match e with | .str s => s = key | _ => false)
  | .str s => .ok (containsSub s key)
  | _ => .error .typeError

/-- Python `d[key]` for a string `key`: dictionary lookup raising `KeyError`
when absent; `TypeError` on lists, strings and scalars. -/
def pyIndexStr (j : Json) (key : String) : Except PyErr Json :=
  match j with
  | .obj fs =>
    match lookupField fs key with
    | some v => .ok v
    | none => .error .keyError
  | _ => .error .typeError

/-- Python `x[i]` for a nonnegative integer `i`: list indexing raising
`IndexError` past the end; character extraction on strings; `KeyError` on
dictionaries (whose keys here are all strings); `TypeError` on scalars. -/
def pyIndexNat (j : Json) (i : ℕ) : Except PyErr Json :=
  match j with
  | .arr xs =>
    match xs.get? i with
    | some v => .ok v
    | none => .error .indexError
  | .str s =>
    match s.toList.get? i with
    | some c => .ok (.str (String.singleton c))
    | none => .error .indexError
  | .obj _ => .error .keyError
  | _ => .error .typeError

/-- The numeric value Python arithmetic sees in a JSON value: numbers are
themselves, booleans coerce to 0/1, everything else raises `TypeError`. -/
def toNumber : Json → Except PyErr ℚ
  | .num q => .ok q
  | .bool b => .ok (if b then 1 else 0)
  | _ => .error .typeError

/-- Data class `SessionInfo` of `vst_mystop.py`: all fields start as
Python `None`. -/
structure SessionInfo where
  session_id : Json := .null
  login_guid : Json := .null
  record_id : Json := .null

/-- Data class `BusInfo` of `vst_mystop.py`. -/
structure BusInfo where
  bus_id : Json := .null
  route_number : Json := .null
  stop_latitude : Json := .null
  stop_longitude : Json := .null

/-- The mutable state of a `BusTracker` instance that the tracked claims
concern: its `session_info` and `bus_info` fields.  The configuration
dictionary and the `requests.Session` object are external collaborators with
no bearing on the embedded logic. -/
structure BusTracker where
  session_info : SessionInfo := {}
  bus_info : BusInfo := {}

/-- Outcome of one HTTP request made by the client: either the transport
layer failed before any status was available (connection error, timeout, or
an undecodable body, all raising a `requests.RequestException` subclass), or
a response with a status code and parsed JSON body arrived. -/
inductive HttpResult where
  | transportError
  | response (status_code : ℕ) (body : Json)

/-- The quadruple `(latitude, longitude, heading, logtime)` that
`login_user`, `vehicledata` and `recentvehicledata` all return. -/
def RetT := Json × Json × Json × Json

/-- The all-`None` return value `(None, None, None, None)`. -/
def noneRet : RetT := (.null, .null, .null, .null)

/-- The single state mutation `self.bus_info.bus_id = None` used throughout
`vst_mystop.py`, including in `_handle_api_error`. -/
def clearBus (st : BusTracker) : BusTracker :=
  { st with bus_info := { st.bus_info with bus_id := .null } }

/-- Sequencing of a fallible Python expression inside a method body: on an
exception the state reached so far is kept (object mutations survive an
unwinding exception) and the exception propagates. -/
def stepE {α β : Type} (x : Except PyErr α) (st : BusTracker)
    (k : α → Except PyErr β × BusTracker) : Except PyErr β × BusTracker :=
  match x with
  | .error e => (.error e, st)
  | .ok a => k a

/-- The exception classes caught by the `try`/`except` clauses of
`BusTracker.login_user`: `requests.RequestException`, `KeyError`,
`TypeError`.  `AttributeError` is not among them. -/
def caughtByLogin : PyErr → Bool
  | .requestException => true
  | .keyError => true
  | .typeError => true
  | _ => false

/-- The `except` handler of `login_user` (via `_handle_api_error`): log,
clear `bus_info.bus_id`, return `None, None, None, None`. -/
def loginHandler (st : BusTracker) : Except PyErr RetT × BusTracker :=
  (.ok noneRet, clearBus st)

/-- Body of the `try` block of `BusTracker.login_user` after a 2xx/3xx
response whose JSON body is `data`, line by line. -/
def loginBody (st : BusTracker) (data : Json) : Except PyErr RetT × BusTracker :=
  -- if "Students" not in data or not data["Students"]:
  stepE (pyContains data "Students") st fun hasStudents =>
  if !hasStudents then (.ok noneRet, clearBus st)
  else
  stepE (pyIndexStr data "Students") st fun students =>
  if !truthy students then (.ok noneRet, clearBus st)
  else
  -- matched_bus_data = data["Students"][0].get("MatchedBusData")
  stepE (pyIndexStr data "Students") st fun students1 =>
  stepE (pyIndexNat students1 0) st fun student0 =>
  stepE (pyGet student0 "MatchedBusData" .null) st fun matched_bus_data =>
  -- if not matched_bus_data:
  if !truthy matched_bus_data then (.ok noneRet, clearBus st)
  else
  -- isactive = matched_bus_data.get("IsActive", False)
  stepE (pyGet matched_bus_data "IsActive" (.bool false)) st fun isactive =>
  -- if not isactive:
  if !truthy isactive then (.ok noneRet, clearBus st)
  else
  -- self.session_info.session_id = data.get("SessionID", None)
  stepE (pyGet data "SessionID" .null) st fun sid =>
  let st := { st with session_info := { st.session_info with session_id := sid } }
  -- self.session_info.login_guid = data.get("LoginGUID", None)
  stepE (pyGet data "LoginGUID" .null) st fun lg =>
  let st := { st with session_info := { st.session_info with login_guid := lg } }
  -- self.session_info.record_id = data["Students"][0].get("RecordID", None)
  stepE (pyIndexStr data "Students") st fun students2 =>
  stepE (pyIndexNat students2 0) st fun student0b =>
  stepE (pyGet student0b "RecordID" .null) st fun rid =>
  let st := { st with session_info := { st.session_info with record_id := rid } }
  -- self.bus_info.bus_id = matched_bus_data.get("RPVehicleId", None)
  stepE (pyGet matched_bus_data "RPVehicleId" .null) st fun vid =>
  let st := { st with bus_info := { st.bus_info with bus_id := vid } }
  -- matched_route = data["Students"][0].get("MatchedRoute", {})
  stepE (pyIndexStr data "Students") st fun students3 =>
  stepE (pyIndexNat students3 0) st fun student0c =>
  stepE (pyGet student0c "MatchedRoute" (.obj [])) st fun matched_route =>
  -- self.bus_info.route_number = matched_route.get("Route", None)
  stepE (pyGet matched_route "Route" .null) st fun route =>
  let st := { st with bus_info := { st.bus_info with route_number := route } }
  -- self.bus_info.stop_latitude = matched_route.get("StopLatitude", None)
  stepE (pyGet matched_route "StopLatitude" .null) st fun slat =>
  let st := { st with bus_info := { st.bus_info with stop_latitude := slat } }
  -- self.bus_info.stop_longitude = matched_route.get("StopLongitude", None)
  stepE (pyGet matched_route "StopLongitude" .null) st fun slon =>
  let st := { st with bus_info := { st.bus_info with stop_longitude := slon } }
  -- latitude/longitude/heading/logtime = matched_bus_data.get(..., None)
  stepE (pyGet matched_bus_data "Latitude" .null) st fun latitude =>
  stepE (pyGet matched_bus_data "Longitude" .null) st fun longitude =>
  stepE (pyGet matched_bus_data "Heading" .null) st fun heading =>
  stepE (pyGet matched_bus_data "LogTime" .null) st fun logtime =>
  (.ok (latitude, longitude, heading, logtime), st)

/-- `BusTracker.login_user` of `vst_mystop.py`.  The whole body sits inside
`try ... except requests.RequestException ... except (KeyError, TypeError)`;
`response.raise_for_status()` raises for status codes in `[400, 600)`. -/
def login_user (st : BusTracker) (resp : HttpResult) : Except PyErr RetT × BusTracker :=
  let run : Except PyErr RetT × BusTracker :=
    match resp with
    | .transportError => (.error .requestException, st)
    | .response code data =>
      if 400 ≤ code ∧ code < 600 then (.error .requestException, st)
      else loginBody st data
  match run with
  | (.error e, st1) => if caughtByLogin e then loginHandler st1 else (.error e, st1)
  | (.ok r, st1) => (.ok r, st1)

/-- `BusTracker.vehicledata` of `vst_mystop.py`.  It has no `try` block:
transport failures and shape errors propagate to the caller.  Header
construction (including the conditional `X-SID`) and the request payload do
not affect tracker state and are not modelled. -/
def vehicledata (st : BusTracker) (resp : HttpResult) : Except PyErr RetT × BusTracker :=
  match resp with
  | .transportError => (.error .requestException, st)
  | .response code data =>
    if code = 200 then
      -- isactive = data["StuBusData"].get("IsActive", False)
      stepE (pyIndexStr data "StuBusData") st fun sbd =>
      stepE (pyGet sbd "IsActive" (.bool false)) st fun isactive =>
      if !truthy isactive then (.ok noneRet, clearBus st)
      else
        stepE (pyGet sbd "Latitude" .null) st fun latitude =>
        stepE (pyGet sbd "Longitude" .null) st fun longitude =>
        stepE (pyGet sbd "Heading" .null) st fun heading =>
        stepE (pyGet sbd "LogTime" .null) st fun logtime =>
        (.ok (latitude, longitude, heading, logtime), st)
    else (.ok noneRet, clearBus st)

/-- The 17-entry direction table of `GeoUtils.degrees_to_direction`. -/
def directions : List String :=
  ["N", "NNE", "NE", "ENE", "E", "ESE", "SE", "SSE",
   "S", "SSW", "SW", "WSW", "W", "WNW", "NW", "NNW", "N"]

/-- Python's `%` on exact numbers with a positive right operand:
`x % m = x - m * floor (x / m)`, always in `[0, m)`. -/
def pymod (x m : ℚ) : ℚ := x - m * ⌊x / m⌋

/-- Python's `int(x)`: truncation toward zero. -/
def pytrunc (x : ℚ) : ℤ := if 0 ≤ x then ⌊x⌋ else -⌊-x⌋

/-- `GeoUtils.degrees_to_direction` of `vst_mystop.py`:
`index = int((degrees + 11.25) % 360 / 22.5)` followed by
`directions[index]`.  The index provably lies in `[0, 15]`, so modelling the
list access with a default never exercises the default. -/
def degrees_to_direction (degrees : ℚ) : String :=
  let index : ℤ := pytrunc (pymod (degrees + 45/4) 360 / (45/2))
  directions.getD index.toNat ""

/-- `BusTracker.recentvehicledata` of `vst_mystop.py`.  No `try` block:
transport failures and shape errors propagate.  The heading conversion
`GeoUtils.degrees_to_direction(bus_info["HeadingDegrees"])` first needs the
value to be numeric; a non-number raises `TypeError` in the arithmetic. -/
def recentvehicledata (st : BusTracker) (resp : HttpResult) : Except PyErr RetT × BusTracker :=
  match resp with
  | .transportError => (.error .requestException, st)
  | .response code data =>
    if code = 200 then
      -- if data and "BusData" in data:
      if !truthy data then (.ok noneRet, clearBus st)
      else
        stepE (pyContains data "BusData") st fun hasBusData =>
        if !hasBusData then (.ok noneRet, clearBus st)
        else
          -- bus_info = data.get("BusData")[1]
          stepE (pyGet data "BusData" .null) st fun busData =>
          stepE (pyIndexNat busData 1) st fun bus_entry =>
          -- direction = GeoUtils.degrees_to_direction(bus_info["HeadingDegrees"])
          stepE (pyIndexStr bus_entry "HeadingDegrees") st fun hd =>
          stepE (toNumber hd) st fun hdq =>
          let direction := degrees_to_direction hdq
          stepE (pyGet bus_entry "Latitude" .null) st fun latitude =>
          stepE (pyGet bus_entry "Longitude" .null) st fun longitude =>
          stepE (pyGet bus_entry "LogTime" .null) st fun logtime =>
          (.ok (latitude, longitude, .str direction, logtime), st)
    else (.ok noneRet, clearBus st)

/-- Conversion from degrees to radians, `math.radians`. -/
noncomputable def radians (x : ℝ) : ℝ := x * Real.pi / 180

/-- Python's `math.atan2(y, x)`: the angle of the point `(x, y)`, in
`(-pi, pi]`, with `atan2(0, 0) = 0`. -/
noncomputable def atan2 (y x : ℝ) : ℝ :=
  if 0 < x then Real.arctan (y / x)
  else if x < 0 then
    (if 0 ≤ y then Real.arctan (y / x) + Real.pi else Real.arctan (y / x) - Real.pi)
  else
    (if 0 < y then Real.pi / 2 else if y < 0 then -(Real.pi / 2) else 0)

/-- The intermediate quantity `a` of `GeoUtils.haversine_distance`. -/
noncomputable def hav_a (lat1 lon1 lat2 lon2 : ℝ) : ℝ :=
  Real.sin (radians (lat2 - lat1) / 2) ^ 2 +
    Real.cos (radians lat1) * Real.cos (radians lat2) *
      Real.sin (radians (lon2 - lon1) / 2) ^ 2

/-- `GeoUtils.haversine_distance` of `vst_mystop.py`, over real numbers. -/
noncomputable def haversine_distance (lat1 lon1 lat2 lon2 : ℝ) : ℝ :=
  let r : ℝ := 6371000
  let phi1 := radians lat1
  let phi2 := radians lat2
  let delta_phi := radians (lat2 - lat1)
  let delta_lambda := radians (lon2 - lon1)
  let a := Real.sin (delta_phi / 2) ^ 2 +
    Real.cos phi1 * Real.cos phi2 * Real.sin (delta_lambda / 2) ^ 2
  let c := 2 * atan2 (Real.sqrt a) (Real.sqrt (1 - a))
  r * c

/-- The arrival threshold `TARGET_DISTANCE_METERS = 82` passed to
`track_bus` by `main`. -/
def TARGET_DISTANCE_METERS : ℝ := 82

/-- Control position inside `BusTracker.track_bus`:
`awaiting` is the `check_bus_status` retry-login loop (`AWAITING_BUS`),
`tracking s` is the main polling loop holding the latest sample `s`,
`arrived` is the terminal `break`, and `crashed e` records an uncaught
Python exception aborting the loop. -/
inductive Phase where
  | awaiting
  | tracking (sample : RetT)
  | arrived
  | crashed (e : PyErr)

/-- Whole-machine state: tracker object state plus control position. -/
structure MState where
  st : BusTracker
  phase : Phase

/-- The distance computation at the top of the `track_bus` loop: the
distance is computed only when the stop coordinates and the sample's
latitude/longitude are all non-`None`; otherwise the cycle records no
distance.  Non-numeric coordinates would raise `TypeError` inside
`math.radians`. -/
noncomputable def distToTarget (st : BusTracker) (s : RetT) : Except PyErr (Option ℝ) :=
  if !isNull st.bus_info.stop_latitude ∧ !isNull st.bus_info.stop_longitude ∧
      !isNull s.1 ∧ !isNull s.2.1 then
    match toNumber s.1, toNumber s.2.1,
        toNumber st.bus_info.stop_latitude, toNumber st.bus_info.stop_longitude with
    | .ok lat, .ok lon, .ok slat, .ok slon =>
      .ok (some (haversine_distance (lat : ℝ) (lon : ℝ) (slat : ℝ) (slon : ℝ)))
    | _, _, _, _ => .error .typeError
  else .ok none

/-- The arrival test at the top of each `track_bus` polling cycle:
`if distance_to_target is not None and distance_to_target < target: break`.
No API call is consumed here. -/
noncomputable def checkArrive (target : ℝ) (m : MState) : MState :=
  match m.phase with
  | .tracking s =>
    match distToTarget m.st s with
    | .error e => ⟨m.st, .crashed e⟩
    | .ok none => m
    | .ok (some d) => if d < target then ⟨m.st, .arrived⟩ else m
  | _ => m

/-- Whether the loop has exited (normal `break` or uncaught exception). -/
def halted : Phase → Bool
  | .arrived => true
  | .crashed _ => true
  | _ => false

/-- Which endpoint the next consumed response feeds: in `AWAITING_BUS` the
machine calls `login_user` (`check_bus_status`); in the polling loop it
calls `vehicledata`. -/
inductive CallKind where
  | login
  | fetch
deriving DecidableEq

/-- The endpoint consumed in each non-halted phase. -/
def kindOf : Phase → CallKind
  | .awaiting => .login
  | _ => .fetch

/-- Consuming one API response.  In `awaiting`, `check_bus_status` loops
`while not self.bus_info.bus_id or latitude is None or longitude is None`,
re-calling `login_user`; leaving the loop enters tracking with the login's
sample.  In `tracking`, the loop tail calls `self.vehicledata()` and
continues with whatever quadruple it returns, with no re-login and no
emptiness check beyond the next cycle's distance guard. -/
def stepCall (m : MState) (resp : HttpResult) : MState :=
  match m.phase with
  | .awaiting =>
    match login_user m.st resp with
    | (.error e, st1) => ⟨st1, .crashed e⟩
    | (.ok (lat, lon, hd, lt), st1) =>
      if truthy st1.bus_info.bus_id && !isNull lat && !isNull lon then
        ⟨st1, .tracking (lat, lon, hd, lt)⟩
      else ⟨st1, .awaiting⟩
  | .tracking _ =>
    match vehicledata m.st resp with
    | (.error e, st1) => ⟨st1, .crashed e⟩
    | (.ok s1, st1) => ⟨st1, .tracking s1⟩
  | _ => m

/-- Run of `track_bus` against a list of pending API responses: each cycle
first performs the arrival check, stops consuming once halted, and otherwise
consumes one response, recording which endpoint consumed it. -/
noncomputable def runCalls (target : ℝ) : MState → List HttpResult → MState × List CallKind
  | m, [] => (m, [])
  | m, r :: rs =>
    let m1 := checkArrive target m
    if halted m1.phase then (m1, [])
    else
      let next := runCalls target (stepCall m1 r) rs
      (next.1, kindOf m1.phase :: next.2)

/-- A fresh `BusTracker` as built by `main` before `track_bus` runs. -/
def initTracker : BusTracker := {}

/-- The machine's start state: `track_bus` begins in `check_bus_status`. -/
def initMState : MState := ⟨initTracker, .awaiting⟩

/-- A well-formed successful login body: active bus `42` at latitude
`busLat`, longitude 0, with stop at `(stopLat, 0)` on route `"R1"`. -/
def loginBodyAt (busLat stopLat : ℚ) : Json :=
  .obj
    [("SessionID", .str "sess-1"),
     ("LoginGUID", .str "guid-1"),
     ("Students",
      .arr
        [.obj
          [("RecordID", .num 77),
           ("MatchedBusData",
            .obj
              [("IsActive", .bool true),
               ("RPVehicleId", .num 42),
               ("Latitude", .num busLat),
               ("Longitude", .num 0),
               ("Heading", .num 180),
               ("LogTime", .str "t0")]),
           ("MatchedRoute",
            .obj
              [("Route", .str "R1"),
               ("StopLatitude", .num stopLat),
               ("StopLongitude", .num 0)])]])]

/-- A 2xx login response with bus at `(busLat, 0)` and stop `(stopLat, 0)`. -/
def loginResp (busLat stopLat : ℚ) : HttpResult :=
  .response 200 (loginBodyAt busLat stopLat)

/-- Fields of a `StuBusData` payload reporting the bus inactive while still
carrying coordinate fields. -/
def inactiveFields : List (String × Json) :=
  [("IsActive", .bool false),
   ("Latitude", .num 1),
   ("Longitude", .num 1),
   ("Heading", .num 90),
   ("LogTime", .str "t1")]

/-- A 2xx `vehicledata` response reporting the bus inactive while still
carrying coordinate fields. -/
def inactiveResp : HttpResult :=
  .response 200 (.obj [("StuBusData", .obj inactiveFields)])

/-- The tracker state right after the successful login `loginResp 0 stopLat`. -/
def trackerAfterLogin (stopLat : ℚ) : BusTracker :=
  { session_info :=
      { session_id := .str "sess-1", login_guid := .str "guid-1", record_id := .num 77 },
    bus_info :=
      { bus_id := .num 42, route_number := .str "R1",
        stop_latitude := .num stopLat, stop_longitude := .num 0 } }

/-- The sample returned by the login in `loginResp 0 stopLat`. -/
def sampleAtOrigin : RetT := (.num 0, .num 0, .num 180, .str "t0")

/-- A populated tracker used to observe that session fields survive an
inactive-bus detection. -/
def populatedTracker : BusTracker :=
  { session_info :=
      { session_id := .str "sess-1", login_guid := .str "guid-1", record_id := .num 77 },
    bus_info :=
      { bus_id := .num 42, route_number := .str "R1",
        stop_latitude := .num 1, stop_longitude := .num 2 } }

/-- The 16-point compass table, one label per 22.5-degree sector.
Modelled from the spec: the sector/label correspondence used by
`directionFromDegrees` as the spec describes it. -/
def compassPoints : List String :=
  ["N", "NNE", "NE", "ENE", "E", "ESE", "SE", "SSE",
   "S", "SSW", "SW", "WSW", "W", "WNW", "NW", "NNW"]

/-- Modelled from the spec: `directionFromDegrees` maps a bearing to one of
16 compass points using 22.5-degree sectors with boundaries offset by +11.25
degrees, the input being taken modulo 360 before bucketing.  The sector of
`x` in `[0, 360)` is `floor ((x + 11.25) / 22.5)` taken cyclically. -/
def specDirection (d : ℚ) : String :=
  let x := pymod d 360
  compassPoints.getD (⌊(x + 45/4) / (45/2)⌋ % 16).toNat ""

/-- The guard cascade of `login_user` that precedes any state population:
`activeShape data` holds exactly when a 2xx body `data` passes the
`Students`, `MatchedBusData` and `IsActive` checks and the method goes on to
populate session and bus fields. -/
def activeShape (data : Json) : Bool :=
  match pyContains data "Students" with
  | .error _ => false
  | .ok has =>
    has &&
      match pyIndexStr data "Students" with
      | .error _ => false
      | .ok students =>
        truthy students &&
          match pyIndexNat students 0 with
          | .error _ => false
          | .ok student0 =>
            match pyGet student0 "MatchedBusData" .null with
            | .error _ => false
            | .ok matched =>
              truthy matched &&
                match pyGet matched "IsActive" (.bool false) with
                | .error _ => false
                | .ok isactive => truthy isactive

/-- A 2xx `recentvehicledata` response whose history list has exactly one
entry. -/
def singleHistoryEntry : Json :=
  .obj
    [("HeadingDegrees", .num 0),
     ("Latitude", .num 5),
     ("Longitude", .num 6),
     ("LogTime", .str "t2")]

/-- The length-1 history response: `{"BusData": [entry]}` with status 200. -/
def singleHistoryResp : HttpResult :=
  .response 200 (.obj [("BusData", .arr [singleHistoryEntry])])

/-- A 2xx login response whose `Students` list holds a bare number instead
of a student object. -/
def malformedLoginResp : HttpResult :=
  .response 200 (.obj [("Students", .arr [.num 5])])

/-- A 2xx login response whose matched bus carries `IsActive: false`
together with a session id and coordinates. -/
def inactiveLoginBody : Json :=
  .obj
    [("SessionID", .str "sess-2"),
     ("Students",
      .arr
        [.obj
          [("MatchedBusData",
            .obj [("IsActive", .bool false), ("Latitude", .num 3)])]])]

/-- The machine state used to witness the arrival rule: stop at
`(0.0007, 0)`, latest sample at the origin, roughly 78 meters away. -/
def mTracking78 : MState :=
  ⟨trackerAfterLogin (7/10000), .tracking sampleAtOrigin⟩

/-- A second history entry, selected when the history has length two. -/
def secondEntry : Json :=
  .obj
    [("HeadingDegrees", .num 100),
     ("Latitude", .num 3),
     ("Longitude", .num 4),
     ("LogTime", .str "t3")]

/-- A 2xx `recentvehicledata` response whose history has two entries. -/
def twoHistoryResp : HttpResult :=
  .response 200 (.obj [("BusData", .arr [singleHistoryEntry, secondEntry])])

/-- After any run of `vehicledata`, the tracker state is either untouched or
has exactly `bus_info.bus_id` overwritten with `None`. -/
theorem vehicledata_state_cases (st : BusTracker) (resp : HttpResult) :
    (vehicledata st resp).2 = st ∨ (vehicledata st resp).2 = clearBus st := by
  cases resp with
  | transportError => exact Or.inl rfl
  | response code data =>
    simp only [vehicledata, stepE]
    repeat' split
    all_goals first | exact Or.inl rfl | exact Or.inr rfl

/-- After any run of `recentvehicledata`, the tracker state is either
untouched or has exactly `bus_info.bus_id` overwritten with `None`. -/
theorem recentvehicledata_state_cases (st : BusTracker) (resp : HttpResult) :
    (recentvehicledata st resp).2 = st ∨ (recentvehicledata st resp).2 = clearBus st := by
  cases resp with
  | transportError => exact Or.inl rfl
  | response code data =>
    simp only [recentvehicledata, stepE]
    repeat' split
    all_goals first | exact Or.inl rfl | exact Or.inr rfl

/-- C10: for every call to `vehicledata` or `recentvehicledata`, under every
outcome (success, transport failure, non-2xx, malformed payload, or inactive
flag), the session fields, stop coordinates and route number are unchanged;
the only field these operations ever modify is `bus_info.bus_id`, and only
by clearing it to `None`. -/
theorem claim_C10_fetch_frame (st : BusTracker) (resp : HttpResult) :
    ((vehicledata st resp).2.session_info = st.session_info ∧
      (vehicledata st resp).2.bus_info.route_number = st.bus_info.route_number ∧
      (vehicledata st resp).2.bus_info.stop_latitude = st.bus_info.stop_latitude ∧
      (vehicledata st resp).2.bus_info.stop_longitude = st.bus_info.stop_longitude ∧
      ((vehicledata st resp).2.bus_info.bus_id = st.bus_info.bus_id ∨
        (vehicledata st resp).2.bus_info.bus_id = Json.null)) ∧
    ((recentvehicledata st resp).2.session_info = st.session_info ∧
      (recentvehicledata st resp).2.bus_info.route_number = st.bus_info.route_number ∧
      (recentvehicledata st resp).2.bus_info.stop_latitude = st.bus_info.stop_latitude ∧
      (recentvehicledata st resp).2.bus_info.stop_longitude = st.bus_info.stop_longitude ∧
      ((recentvehicledata st resp).2.bus_info.bus_id = st.bus_info.bus_id ∨
        (recentvehicledata st resp).2.bus_info.bus_id = Json.null)) := by
  constructor
  · rcases vehicledata_state_cases st resp with h | h <;> rw [h] <;>
      exact ⟨rfl, rfl, rfl, rfl, by first | exact Or.inl rfl | exact Or.inr rfl⟩
  · rcases recentvehicledata_state_cases st resp with h | h <;> rw [h] <;>
      exact ⟨rfl, rfl, rfl, rfl, by first | exact Or.inl rfl | exact Or.inr rfl⟩

/-- C3 (failing input): a 2xx `recentvehicledata` response whose history
list has exactly one entry passes the `data and "BusData" in data` guard and
then evaluates `data.get("BusData")[1]`, raising an uncaught `IndexError`;
contrary to the claim, `bus_info.bus_id` is not cleared and no `None` result
is returned.  A two-entry history does select index 1 and converts its
`HeadingDegrees` to a compass label. -/
theorem claim_C3_single_history_crash :
    recentvehicledata populatedTracker singleHistoryResp =
      (.error .indexError, populatedTracker) ∧
    (recentvehicledata populatedTracker singleHistoryResp).2.bus_info.bus_id = .num 42 ∧
    recentvehicledata populatedTracker twoHistoryResp =
      (.ok (.num 3, .num 4, .str "E", .str "t3"), populatedTracker) := by
  refine ⟨rfl, rfl, ?_⟩
  have hd : degrees_to_direction 100 = "E" := by
    unfold degrees_to_direction pymod pytrunc
    norm_num
    rfl
  calc recentvehicledata populatedTracker twoHistoryResp
      = (.ok (.num 3, .num 4, .str (degrees_to_direction 100), .str "t3"),
          populatedTracker) := rfl
    _ = (.ok (.num 3, .num 4, .str "E", .str "t3"), populatedTracker) := by rw [hd]

/-- C6: a 2xx `vehicledata` response whose `StuBusData` object carries
`IsActive: false` makes the call clear `bus_info.bus_id` and return
`(None, None, None, None)`, whatever other fields (coordinates included) the
payload carries. -/
theorem claim_C6_inactive_governs (st : BusTracker) (ds fields : List (String × Json))
    (h1 : lookupField ds "StuBusData" = some (.obj fields))
    (h2 : lookupField fields "IsActive" = some (.bool false)) :
    vehicledata st (.response 200 (.obj ds)) = (.ok noneRet, clearBus st) := by
  unfold vehicledata stepE
  simp [pyIndexStr, h1, pyGet, h2, truthy]

/-- Witness for C6: the concrete inactive response, which carries latitude
and longitude fields alongside the false activity flag. -/
theorem claim_C6_witness :
    vehicledata populatedTracker inactiveResp = (.ok noneRet, clearBus populatedTracker) ∧
    lookupField inactiveFields "Latitude" = some (.num 1) ∧
    lookupField inactiveFields "Longitude" = some (.num 1) :=
  ⟨claim_C6_inactive_governs populatedTracker _ inactiveFields rfl rfl, rfl, rfl⟩

/-- C4 (counterexample): an inactive-bus detection by `vehicledata` clears
`bus_info.bus_id` but leaves every session field populated — the session is
not invalidated, contrary to the claim. -/
theorem claim_C4_counterexample :
    (vehicledata populatedTracker inactiveResp).2.bus_info.bus_id = Json.null ∧
    (vehicledata populatedTracker inactiveResp).2.session_info.session_id = .str "sess-1" ∧
    (vehicledata populatedTracker inactiveResp).2.session_info.login_guid = .str "guid-1" ∧
    (vehicledata populatedTracker inactiveResp).2.session_info.record_id = .num 77 ∧
    Json.str "sess-1" ≠ Json.null :=
  ⟨rfl, rfl, rfl, rfl, fun h => Json.noConfusion h⟩

/-- C5 (counterexample): a 2xx login response whose `Students[0]` is a bare
number escapes the method's `except (KeyError, TypeError)` clauses — calling
`.get` on a number raises `AttributeError`, which propagates to the caller
instead of yielding the empty result. -/
theorem claim_C5_counterexample :
    login_user populatedTracker malformedLoginResp =
      (.error .attributeError, populatedTracker) := rfl


lemma pyContains_error (j : Json) (k : String) (e : PyErr)
    (h : pyContains j k = .error e) : e = .typeError := by
  cases j <;> simp only [pyContains] at h <;> first
    | (injection h with h2; exact h2.symm)
    | injection h

lemma pyIndexStr_error (j : Json) (k : String) (e : PyErr)
    (h : pyIndexStr j k = .error e) : e = .keyError ∨ e = .typeError := by
  cases j with
  | obj fs =>
    simp only [pyIndexStr] at h
    cases hl : lookupField fs k <;> rw [hl] at h
    · injection h with h2; exact Or.inl h2.symm
    · injection h
  | null => simp only [pyIndexStr] at h; injection h with h2; exact Or.inr h2.symm
  | bool b => simp only [pyIndexStr] at h; injection h with h2; exact Or.inr h2.symm
  | num q => simp only [pyIndexStr] at h; injection h with h2; exact Or.inr h2.symm
  | str s => simp only [pyIndexStr] at h; injection h with h2; exact Or.inr h2.symm
  | arr xs => simp only [pyIndexStr] at h; injection h with h2; exact Or.inr h2.symm

lemma pyGet_error (j : Json) (k : String) (d : Json) (e : PyErr)
    (h : pyGet j k d = .error e) : e = .attributeError := by
  cases j <;> simp only [pyGet] at h <;> first
    | (injection h with h2; exact h2.symm)
    | injection h

lemma pyIndexNat_zero_error (j : Json) (e : PyErr)
    (h : pyIndexNat j 0 = .error e) (ht : truthy j = true) :
    e = .keyError ∨ e = .typeError := by
  cases j with
  | arr xs => cases xs <;> simp_all [truthy, pyIndexNat]
  | str s =>
    cases h2 : s.toList <;> simp_all [truthy, pyIndexNat]
  | obj fs =>
    simp only [pyIndexNat] at h; injection h with h2; exact Or.inl h2.symm
  | null => simp_all [truthy]
  | bool b =>
    simp only [pyIndexNat] at h; injection h with h2; exact Or.inr h2.symm
  | num q =>
    simp only [pyIndexNat] at h; injection h with h2; exact Or.inr h2.symm

lemma loginBody_error_classes (st : BusTracker) (data : Json) (e : PyErr)
    (h : (loginBody st data).1 = .error e) :
    e = .keyError ∨ e = .typeError ∨ e = .attributeError := by
  unfold loginBody at h
  simp only [stepE] at h
  repeat' split at h
  any_goals simp_all
  all_goals first
    | (have hh := pyContains_error _ _ _ ‹pyContains _ _ = Except.error _›; tauto)
    | (have hh := pyIndexStr_error _ _ _ ‹pyIndexStr _ _ = Except.error _›; tauto)
    | (have hh := pyGet_error _ _ _ _ ‹pyGet _ _ _ = Except.error _›; tauto)
    | (have hh := pyIndexNat_zero_error _ _ ‹pyIndexNat _ 0 = Except.error _›
        ‹truthy _ = true›; tauto)

lemma login_user_error_attr (st : BusTracker) (resp : HttpResult) (e : PyErr)
    (h : (login_user st resp).1 = .error e) : e = .attributeError := by
  unfold login_user at h
  cases resp with
  | transportError => simp [caughtByLogin, loginHandler] at h
  | response code data =>
    by_cases hc : 400 ≤ code ∧ code < 600
    · simp [hc, caughtByLogin, loginHandler] at h
    · simp only [if_neg hc] at h
      rcases hb : loginBody st data with ⟨r, st1⟩
      cases r with
      | ok v => simp [hb] at h
      | error e1 =>
        have hcls := loginBody_error_classes st data e1 (by rw [hb])
        by_cases hcaught : caughtByLogin e1 = true
        · simp [hb, hcaught, loginHandler] at h
        · simp [hb, hcaught] at h
          subst h
          rcases hcls with h1 | h1 | h1
          · exact absurd (h1 ▸ rfl) hcaught
          · exact absurd (h1 ▸ rfl) hcaught
          · exact h1

lemma lookupField_ne_nil {fs : List (String × Json)} {k : String} {v : Json}
    (h : lookupField fs k = some v) : fs.isEmpty = false := by
  cases fs with
  | nil => simp [lookupField] at h
  | cons a rest => rfl

lemma loginBody_session_changed (st : BusTracker) (data : Json)
    (h : (loginBody st data).2.session_info ≠ st.session_info) :
    activeShape data = true := by
  unfold loginBody at h
  simp only [stepE] at h
  repeat' split at h
  all_goals simp_all [activeShape, clearBus]

lemma login_user_transport (st : BusTracker) :
    login_user st .transportError = (.ok noneRet, clearBus st) := rfl

lemma login_user_http_error (st : BusTracker) (code : ℕ) (body : Json)
    (h1 : 400 ≤ code) (h2 : code < 600) :
    login_user st (.response code body) = (.ok noneRet, clearBus st) := by
  simp only [login_user]
  rw [if_pos ⟨h1, h2⟩]
  rfl

lemma login_user_no_students (st : BusTracker) (ds : List (String × Json))
    (h : lookupField ds "Students" = none) :
    login_user st (.response 200 (.obj ds)) = (.ok noneRet, clearBus st) := by
  unfold login_user loginBody
  simp [stepE, pyContains, h]

lemma login_user_no_matched (st : BusTracker) (ds sfields : List (String × Json))
    (srest : List Json)
    (h1 : lookupField ds "Students" = some (.arr (Json.obj sfields :: srest)))
    (h2 : lookupField sfields "MatchedBusData" = none) :
    login_user st (.response 200 (.obj ds)) = (.ok noneRet, clearBus st) := by
  unfold login_user loginBody
  simp [stepE, pyContains, pyIndexStr, pyIndexNat, pyGet, h1, h2, truthy]

lemma login_user_inactive (st : BusTracker) (ds sfields mfields : List (String × Json))
    (srest : List Json)
    (h1 : lookupField ds "Students" = some (.arr (Json.obj sfields :: srest)))
    (h2 : lookupField sfields "MatchedBusData" = some (.obj mfields))
    (h3 : lookupField mfields "IsActive" = some (.bool false)) :
    login_user st (.response 200 (.obj ds)) = (.ok noneRet, clearBus st) := by
  have hne : mfields.isEmpty = false := lookupField_ne_nil h3
  unfold login_user loginBody
  simp [stepE, pyContains, pyIndexStr, pyIndexNat, pyGet, h1, h2, h3, truthy, hne]

lemma login_user_session_changed (st : BusTracker) (resp : HttpResult)
    (h : (login_user st resp).2.session_info ≠ st.session_info) :
    ∃ code body, resp = .response code body ∧ ¬(400 ≤ code ∧ code < 600) ∧
      activeShape body = true := by
  cases resp with
  | transportError => simp [login_user, loginHandler, clearBus, caughtByLogin] at h
  | response code data =>
    by_cases hc : 400 ≤ code ∧ code < 600
    · rw [login_user_http_error st code data hc.1 hc.2] at h
      simp [clearBus] at h
    · refine ⟨code, data, rfl, hc, ?_⟩
      apply loginBody_session_changed st data
      intro hs
      apply h
      simp only [login_user]
      rw [if_neg hc]
      rcases hb : loginBody st data with ⟨r, st1⟩
      cases r with
      | ok v => simpa [hb] using (by rw [hb] at hs; exact hs)
      | error e1 =>
        have hs1 : st1.session_info = st.session_info := by rw [hb] at hs; exact hs
        by_cases hcaught : caughtByLogin e1 = true
        · simp [hb, hcaught, loginHandler, clearBus, hs1]
        · simp [hb, hcaught, hs1]

/-- C4 (amended): whenever the bus is detected inactive or a request fails
with an unrecoverable status, only `bus_info.bus_id` is cleared; the session
fields are left unchanged.  `vehicledata` and `recentvehicledata` never
touch `session_info`, and the transport-failure, HTTP-error and
inactive-flag paths of `login_user` return the empty result while clearing
only the bus id. -/
theorem claim_C4_amended :
    (∀ st resp, (vehicledata st resp).2.session_info = st.session_info) ∧
    (∀ st resp, (recentvehicledata st resp).2.session_info = st.session_info) ∧
    (∀ st, login_user st .transportError = (.ok noneRet, clearBus st)) ∧
    (∀ st code body, 400 ≤ code → code < 600 →
      login_user st (.response code body) = (.ok noneRet, clearBus st)) ∧
    (∀ st ds sfields mfields srest,
      lookupField ds "Students" = some (.arr (Json.obj sfields :: srest)) →
      lookupField sfields "MatchedBusData" = some (.obj mfields) →
      lookupField mfields "IsActive" = some (.bool false) →
      login_user st (.response 200 (.obj ds)) = (.ok noneRet, clearBus st)) := by
  refine ⟨?_, ?_, login_user_transport, login_user_http_error, login_user_inactive⟩
  · intro st resp
    rcases vehicledata_state_cases st resp with h | h <;> simp [h, clearBus]
  · intro st resp
    rcases recentvehicledata_state_cases st resp with h | h <;> simp [h, clearBus]

/-- Witness for C4 (amended) at concrete inputs: an inactive `vehicledata`
poll, a 500 login response, and an inactive login response. -/
theorem claim_C4_witness :
    (vehicledata populatedTracker inactiveResp).2.session_info =
      populatedTracker.session_info ∧
    login_user populatedTracker (.response 500 .null) =
      (.ok noneRet, clearBus populatedTracker) ∧
    login_user populatedTracker (.response 200 inactiveLoginBody) =
      (.ok noneRet, clearBus populatedTracker) := by
  refine ⟨claim_C4_amended.1 _ _, ?_, ?_⟩
  · exact claim_C4_amended.2.2.2.1 _ 500 _ (by norm_num) (by norm_num)
  · exact claim_C4_amended.2.2.2.2 _ _ _ _ _ rfl rfl rfl

/-- C5 (amended): `login_user` returns the empty result with
`bus_info.bus_id` cleared, raising nothing, on transport failure, HTTP
error status, a body with no `Students` key, a student with no
`MatchedBusData`, and an inactive activity flag; the only exception that can
escape its `except (KeyError, TypeError)` clauses is an `AttributeError`
(from a non-dict where a dict was expected); and the session fields change
only when a non-error response passes the full activity-guard cascade. -/
theorem claim_C5_amended :
    (∀ st resp e, (login_user st resp).1 = .error e → e = .attributeError) ∧
    (∀ st, login_user st .transportError = (.ok noneRet, clearBus st)) ∧
    (∀ st code body, 400 ≤ code → code < 600 →
      login_user st (.response code body) = (.ok noneRet, clearBus st)) ∧
    (∀ st ds, lookupField ds "Students" = none →
      login_user st (.response 200 (.obj ds)) = (.ok noneRet, clearBus st)) ∧
    (∀ st ds sfields srest,
      lookupField ds "Students" = some (.arr (Json.obj sfields :: srest)) →
      lookupField sfields "MatchedBusData" = none →
      login_user st (.response 200 (.obj ds)) = (.ok noneRet, clearBus st)) ∧
    (∀ st ds sfields mfields srest,
      lookupField ds "Students" = some (.arr (Json.obj sfields :: srest)) →
      lookupField sfields "MatchedBusData" = some (.obj mfields) →
      lookupField mfields "IsActive" = some (.bool false) →
      login_user st (.response 200 (.obj ds)) = (.ok noneRet, clearBus st)) ∧
    (∀ st resp, (login_user st resp).2.session_info ≠ st.session_info →
      ∃ code body, resp = .response code body ∧ ¬(400 ≤ code ∧ code < 600) ∧
        activeShape body = true) :=
  ⟨login_user_error_attr, login_user_transport, login_user_http_error,
    login_user_no_students, login_user_no_matched, login_user_inactive,
    login_user_session_changed⟩

/-- Witness for C5 (amended) at concrete inputs: the escaping
`AttributeError` input, a missing-`Students` body, and a session change that
certifies the active-shape guard. -/
theorem claim_C5_witness :
    PyErr.attributeError = .attributeError ∧
    login_user populatedTracker (.response 200 (.obj [("Other", .num 1)])) =
      (.ok noneRet, clearBus populatedTracker) ∧
    (∃ code body, loginResp 0 (7/10000) = .response code body ∧
      ¬(400 ≤ code ∧ code < 600) ∧ activeShape body = true) := by
  refine ⟨claim_C5_amended.1 populatedTracker malformedLoginResp _ rfl, ?_, ?_⟩
  · exact claim_C5_amended.2.2.2.1 _ _ rfl
  · exact claim_C5_amended.2.2.2.2.2.2 initTracker (loginResp 0 (7/10000))
      (fun hx => Json.noConfusion (congrArg SessionInfo.session_id hx))

lemma radians_sub (a b : ℝ) : radians (a - b) = radians a - radians b := by
  unfold radians; ring

lemma hav_a_same (lat lon : ℝ) : hav_a lat lon lat lon = 0 := by
  simp [hav_a, radians]

lemma haversine_eq (lat1 lon1 lat2 lon2 : ℝ) :
    haversine_distance lat1 lon1 lat2 lon2 =
      6371000 * (2 * atan2 (Real.sqrt (hav_a lat1 lon1 lat2 lon2))
        (Real.sqrt (1 - hav_a lat1 lon1 lat2 lon2))) := rfl

lemma atan2_zero_one : atan2 0 1 = 0 := by
  norm_num [atan2, Real.arctan_zero]

lemma hav_a_symm (lat1 lon1 lat2 lon2 : ℝ) :
    hav_a lat1 lon1 lat2 lon2 = hav_a lat2 lon2 lat1 lon1 := by
  unfold hav_a
  have h1 : ∀ a b : ℝ, Real.sin (radians (a - b) / 2) ^ 2
      = Real.sin (radians (b - a) / 2) ^ 2 := by
    intro a b
    have h : radians (a - b) / 2 = -(radians (b - a) / 2) := by unfold radians; ring
    rw [h, Real.sin_neg, neg_sq]
  rw [h1 lat2 lat1, h1 lon2 lon1]
  ring

lemma sin_sq_add_cos_mul_cos (x y : ℝ) :
    Real.sin x ^ 2 + Real.cos (y - x) * Real.cos (y + x) = Real.cos y ^ 2 := by
  rw [Real.cos_sub, Real.cos_add]
  nlinarith [Real.sin_sq_add_cos_sq x, Real.sin_sq_add_cos_sq y]

lemma hav_a_mem (lat1 lon1 lat2 lon2 : ℝ) :
    0 ≤ hav_a lat1 lon1 lat2 lon2 ∧ hav_a lat1 lon1 lat2 lon2 ≤ 1 := by
  have hr : radians (lat2 - lat1) / 2
      = (radians lat2 - radians lat1) / 2 := by rw [radians_sub]
  have key := sin_sq_add_cos_mul_cos ((radians lat2 - radians lat1) / 2)
    ((radians lat1 + radians lat2) / 2)
  have h2 : (radians lat1 + radians lat2) / 2 - (radians lat2 - radians lat1) / 2
      = radians lat1 := by ring
  have h3 : (radians lat1 + radians lat2) / 2 + (radians lat2 - radians lat1) / 2
      = radians lat2 := by ring
  rw [h2, h3] at key
  unfold hav_a
  rw [hr]
  constructor
  · nlinarith [sq_nonneg (Real.sin ((radians lat2 - radians lat1) / 2)),
      sq_nonneg (Real.cos ((radians lat1 + radians lat2) / 2)),
      Real.sin_sq_le_one (radians (lon2 - lon1) / 2),
      sq_nonneg (Real.sin (radians (lon2 - lon1) / 2)), key]
  · nlinarith [Real.sin_sq_le_one ((radians lat2 - radians lat1) / 2),
      Real.sin_sq_le_one (radians (lon2 - lon1) / 2),
      sq_nonneg (Real.sin (radians (lon2 - lon1) / 2)),
      sq_nonneg (Real.sin ((radians lat2 - radians lat1) / 2)),
      Real.cos_sq_le_one ((radians lat1 + radians lat2) / 2),
      sq_nonneg (Real.cos ((radians lat1 + radians lat2) / 2)), key]

lemma atan2_nonneg {y : ℝ} (x : ℝ) (hy : 0 ≤ y) : 0 ≤ atan2 y x := by
  unfold atan2
  split_ifs with h1 h2 h3 h4
  · rw [← Real.arctan_zero]
    exact Real.arctan_strictMono.monotone (div_nonneg hy h1.le)
  · nlinarith [Real.neg_pi_div_two_lt_arctan (y / x), Real.pi_pos]
  all_goals linarith [Real.pi_pos]

lemma radians_zero : radians 0 = 0 := by
  unfold radians; ring

/-- C8: `haversine_distance` is reflexive and symmetric. -/
theorem claim_C8_reflexive_symmetric :
    (∀ lat lon : ℝ, haversine_distance lat lon lat lon = 0) ∧
    (∀ lat1 lon1 lat2 lon2 : ℝ,
      haversine_distance lat1 lon1 lat2 lon2 = haversine_distance lat2 lon2 lat1 lon1) := by
  constructor
  · intro lat lon
    rw [haversine_eq, hav_a_same]
    norm_num [Real.sqrt_zero, Real.sqrt_one, atan2_zero_one]
  · intro lat1 lon1 lat2 lon2
    rw [haversine_eq lat1 lon1 lat2 lon2, haversine_eq lat2 lon2 lat1 lon1,
      hav_a_symm lat1 lon1 lat2 lon2]

/-- C9: the haversine radicand `1 - a` is never negative and the returned
distance is always nonnegative, for arbitrary (also out-of-range) inputs. -/
theorem claim_C9_total_nonneg (lat1 lon1 lat2 lon2 : ℝ) :
    0 ≤ 1 - hav_a lat1 lon1 lat2 lon2 ∧
    0 ≤ haversine_distance lat1 lon1 lat2 lon2 := by
  obtain ⟨h0, h1⟩ := hav_a_mem lat1 lon1 lat2 lon2
  refine ⟨by linarith, ?_⟩
  rw [haversine_eq]
  have h2 := atan2_nonneg (y := Real.sqrt (hav_a lat1 lon1 lat2 lon2))
    (Real.sqrt (1 - hav_a lat1 lon1 lat2 lon2)) (Real.sqrt_nonneg _)
  linarith

lemma haversine_meridian (lat2 : ℝ) (h0 : 0 ≤ lat2) (h1 : radians lat2 < Real.pi) :
    haversine_distance 0 0 lat2 0 = 6371000 * radians lat2 := by
  have hr0 : 0 ≤ radians lat2 :=
    div_nonneg (mul_nonneg h0 Real.pi_pos.le) (by norm_num)
  have hth0 : 0 ≤ radians lat2 / 2 := by linarith
  have hthlt : radians lat2 / 2 < Real.pi / 2 := by linarith
  have ha : hav_a 0 0 lat2 0 = Real.sin (radians lat2 / 2) ^ 2 := by
    simp [hav_a, radians_zero, sub_zero]
  rw [haversine_eq, ha]
  have hsin : Real.sqrt (Real.sin (radians lat2 / 2) ^ 2) = Real.sin (radians lat2 / 2) :=
    Real.sqrt_sq (Real.sin_nonneg_of_nonneg_of_le_pi hth0 (by linarith [Real.pi_pos]))
  have hcosid : (1 : ℝ) - Real.sin (radians lat2 / 2) ^ 2
      = Real.cos (radians lat2 / 2) ^ 2 := by
    nlinarith [Real.sin_sq_add_cos_sq (radians lat2 / 2)]
  have hcospos : 0 < Real.cos (radians lat2 / 2) :=
    Real.cos_pos_of_mem_Ioo ⟨by linarith [Real.pi_pos], hthlt⟩
  have hcos : Real.sqrt (1 - Real.sin (radians lat2 / 2) ^ 2)
      = Real.cos (radians lat2 / 2) := by
    rw [hcosid]; exact Real.sqrt_sq hcospos.le
  rw [hsin, hcos]
  unfold atan2
  rw [if_pos hcospos, ← Real.tan_eq_sin_div_cos,
    Real.arctan_tan (by linarith [Real.pi_pos]) hthlt]
  ring

lemma dist78_lt : haversine_distance 0 0 ((7 : ℝ)/10000) 0 < 82 := by
  rw [haversine_meridian ((7 : ℝ)/10000) (by norm_num)
    (by unfold radians; nlinarith [Real.pi_pos])]
  unfold radians
  nlinarith [Real.pi_lt_d2]

lemma dist500_not_lt : ¬ haversine_distance 0 0 ((9 : ℝ)/2000) 0 < 82 := by
  rw [haversine_meridian ((9 : ℝ)/2000) (by norm_num)
    (by unfold radians; nlinarith [Real.pi_pos])]
  unfold radians
  nlinarith [Real.pi_gt_d2]

lemma pymod_nonneg (x m : ℚ) (hm : 0 < m) : 0 ≤ pymod x m := by
  unfold pymod
  have h : ((⌊x / m⌋ : ℚ)) ≤ x / m := Int.floor_le (x / m)
  have h2 : m * (⌊x / m⌋ : ℚ) ≤ m * (x / m) := mul_le_mul_of_nonneg_left h hm.le
  have h3 : m * (x / m) = x := by field_simp
  linarith

lemma pymod_lt (x m : ℚ) (hm : 0 < m) : pymod x m < m := by
  unfold pymod
  have h : x / m < (⌊x / m⌋ : ℚ) + 1 := Int.lt_floor_add_one (x / m)
  have h2 : m * (x / m) < m * ((⌊x / m⌋ : ℚ) + 1) := by
    exact mul_lt_mul_of_pos_left h hm
  have h3 : m * (x / m) = x := by field_simp
  nlinarith

lemma pymod_add_int_mul (x m : ℚ) (k : ℤ) (hm : m ≠ 0) :
    pymod (x + m * k) m = pymod x m := by
  unfold pymod
  have h : (x + m * k) / m = x / m + k := by field_simp; ring
  rw [h, Int.floor_add_int]
  push_cast
  ring

lemma pymod_eq_self (x m : ℚ) (h0 : 0 ≤ x) (h1 : x < m) : pymod x m = x := by
  unfold pymod
  have hm : 0 < m := lt_of_le_of_lt h0 h1
  have hf : ⌊x / m⌋ = 0 := by
    rw [Int.floor_eq_zero_iff]
    exact ⟨div_nonneg h0 hm.le, by rw [div_lt_one hm]; exact h1⟩
  rw [hf]
  push_cast
  ring

lemma direction_wrap (d : ℚ) :
    pymod (d + 45/4) 360 = pymod (pymod d 360 + 45/4) 360 := by
  have h := pymod_add_int_mul (pymod d 360 + 45/4) 360 ⌊d / 360⌋ (by norm_num)
  have harg : pymod d 360 + 45/4 + 360 * (⌊d / 360⌋ : ℚ) = d + 45/4 := by
    unfold pymod; ring
  rw [harg] at h
  exact h

lemma direction_spec_eq (d : ℚ) : degrees_to_direction d = specDirection d := by
  have h360 : (0:ℚ) < 360 := by norm_num
  have hx0 : 0 ≤ pymod d 360 := pymod_nonneg d 360 h360
  have hx1 : pymod d 360 < 360 := pymod_lt d 360 h360
  simp only [degrees_to_direction, specDirection, pytrunc]
  rw [direction_wrap d]
  set x := pymod d 360 with hx
  by_cases hcase : x + 45/4 < 360
  · rw [pymod_eq_self (x + 45/4) 360 (by linarith) hcase]
    have harg0 : 0 ≤ (x + 45/4) / (45/2) := div_nonneg (by linarith) (by norm_num)
    rw [if_pos harg0]
    have hub : ⌊(x + 45/4) / (45/2)⌋ < 16 := by
      rw [Int.floor_lt]
      push_cast
      rw [div_lt_iff (by norm_num : (0:ℚ) < 45/2)]
      linarith
    have hlb : 0 ≤ ⌊(x + 45/4) / (45/2)⌋ := Int.floor_nonneg.mpr harg0
    have hmod : ⌊(x + 45/4) / (45/2)⌋ % 16 = ⌊(x + 45/4) / (45/2)⌋ :=
      Int.emod_eq_of_lt hlb hub
    rw [hmod]
    generalize hN : (⌊(x + 45/4) / (45/2)⌋).toNat = N
    have hN15 : N ≤ 15 := by omega
    interval_cases N <;> rfl
  · push_neg at hcase
    have h1 : pymod (x + 45/4) 360 = x + 45/4 - 360 := by
      have h := pymod_add_int_mul (x + 45/4 - 360) 360 1 (by norm_num)
      have harg : x + 45/4 - 360 + 360 * ((1 : ℤ) : ℚ) = x + 45/4 := by
        push_cast; ring
      rw [harg] at h
      rw [h]
      exact pymod_eq_self _ 360 (by linarith) (by linarith)
    rw [h1]
    have hnum0 : 0 ≤ (x + 45/4 - 360) / (45/2) := div_nonneg (by linarith) (by norm_num)
    rw [if_pos hnum0]
    have hcf : ⌊(x + 45/4 - 360) / (45/2)⌋ = 0 := by
      rw [Int.floor_eq_zero_iff]
      refine ⟨hnum0, ?_⟩
      rw [div_lt_one (by norm_num : (0:ℚ) < 45/2)]
      linarith
    have hsf : ⌊(x + 45/4) / (45/2)⌋ = 16 := by
      rw [Int.floor_eq_iff]
      push_cast
      constructor
      · rw [le_div_iff (by norm_num : (0:ℚ) < 45/2)]
        linarith
      · rw [div_lt_iff (by norm_num : (0:ℚ) < 45/2)]
        linarith
    rw [hcf, hsf]
    rfl

/-- C7: `degrees_to_direction` returns the 16-point compass label of the
22.5-degree sector (boundaries offset by +11.25 degrees) containing the
input taken modulo 360: the boundary values of the spec hold, inputs are
invariant under adding whole turns and agree with their Python-`% 360`
representative, and the function coincides everywhere with the sector map
`specDirection` modelled from the spec's words. -/
theorem claim_C7_direction :
    degrees_to_direction 0 = "N" ∧
    degrees_to_direction 90 = "E" ∧
    degrees_to_direction 359 = "N" ∧
    degrees_to_direction 360 = "N" ∧
    degrees_to_direction (45/4) = "NNE" ∧
    (∀ (d : ℚ) (k : ℤ), degrees_to_direction (d + 360 * k) = degrees_to_direction d) ∧
    (∀ d : ℚ, degrees_to_direction d = degrees_to_direction (pymod d 360)) ∧
    (∀ d : ℚ, degrees_to_direction d = specDirection d) := by
  refine ⟨?_, ?_, ?_, ?_, ?_, ?_, ?_, direction_spec_eq⟩
  · unfold degrees_to_direction pymod pytrunc; norm_num; rfl
  · unfold degrees_to_direction pymod pytrunc; norm_num; rfl
  · unfold degrees_to_direction pymod pytrunc; norm_num; rfl
  · unfold degrees_to_direction pymod pytrunc; norm_num; rfl
  · unfold degrees_to_direction pymod pytrunc; norm_num; rfl
  · intro d k
    have h := pymod_add_int_mul (d + 45/4) 360 k (by norm_num)
    have harg : d + 45/4 + 360 * (k : ℚ) = d + 360 * k + 45/4 := by ring
    rw [harg] at h
    unfold degrees_to_direction
    rw [h]
  · intro d
    unfold degrees_to_direction
    rw [direction_wrap d]

lemma dist78_lt_target :
    haversine_distance ((0:ℚ):ℝ) ((0:ℚ):ℝ) (((7:ℚ)/10000:ℚ):ℝ) ((0:ℚ):ℝ)
      < TARGET_DISTANCE_METERS := by
  have h1 : ((0:ℚ):ℝ) = 0 := by norm_num
  have h2 : (((7:ℚ)/10000:ℚ):ℝ) = (7:ℝ)/10000 := by push_cast; ring
  rw [h1, h2]
  unfold TARGET_DISTANCE_METERS
  exact dist78_lt

lemma dist500_not_lt_target :
    ¬ haversine_distance ((0:ℚ):ℝ) ((0:ℚ):ℝ) (((9:ℚ)/2000:ℚ):ℝ) ((0:ℚ):ℝ)
      < TARGET_DISTANCE_METERS := by
  have h1 : ((0:ℚ):ℝ) = 0 := by norm_num
  have h2 : (((9:ℚ)/2000:ℚ):ℝ) = (9:ℝ)/2000 := by push_cast; ring
  rw [h1, h2]
  unfold TARGET_DISTANCE_METERS
  exact dist500_not_lt

lemma distToTarget_origin (stopLat : ℚ) :
    distToTarget (trackerAfterLogin stopLat) sampleAtOrigin
      = .ok (some (haversine_distance ((0:ℚ):ℝ) ((0:ℚ):ℝ) ((stopLat:ℚ):ℝ) ((0:ℚ):ℝ))) := rfl

lemma stepCall_login_origin (stopLat : ℚ) :
    stepCall initMState (loginResp 0 stopLat)
      = ⟨trackerAfterLogin stopLat, .tracking sampleAtOrigin⟩ := rfl

lemma checkArrive_78 :
    checkArrive TARGET_DISTANCE_METERS
        ⟨trackerAfterLogin (7/10000), .tracking sampleAtOrigin⟩
      = ⟨trackerAfterLogin (7/10000), .arrived⟩ := by
  simp [checkArrive, distToTarget_origin (7/10000)]
  exact dist78_lt

lemma checkArrive_500 :
    checkArrive TARGET_DISTANCE_METERS
        ⟨trackerAfterLogin (9/2000), .tracking sampleAtOrigin⟩
      = ⟨trackerAfterLogin (9/2000), .tracking sampleAtOrigin⟩ := by
  simp [checkArrive, distToTarget_origin (9/2000)]
  exact not_lt.mp dist500_not_lt

/-- C1: in the polling loop, as soon as the computed distance from the
latest sample to the stop is strictly below the 82-meter target, the next
cycle breaks out (`ARRIVED`) and consumes no further response; in the
concrete scenario, a login placing the bus about 78 meters from the stop
(bus at the origin, stop at latitude 0.0007) leads the machine to arrival
with a single consumed login call and no `vehicledata` call at all. -/
theorem claim_C1_arrival :
    (∀ (m : MState) (s : RetT) (d : ℝ), m.phase = .tracking s →
      distToTarget m.st s = .ok (some d) → d < TARGET_DISTANCE_METERS →
      (checkArrive TARGET_DISTANCE_METERS m).phase = .arrived ∧
      ∀ (r : HttpResult) (rs : List HttpResult),
        runCalls TARGET_DISTANCE_METERS m (r :: rs) = (⟨m.st, .arrived⟩, [])) ∧
    (∀ rs : List HttpResult,
      (runCalls TARGET_DISTANCE_METERS initMState (loginResp 0 (7/10000) :: rs)).2
        = [CallKind.login] ∧
      (rs ≠ [] →
        (runCalls TARGET_DISTANCE_METERS initMState
            (loginResp 0 (7/10000) :: rs)).1.phase = .arrived)) := by
  constructor
  · intro m s d hphase hdist hlt
    have hca : checkArrive TARGET_DISTANCE_METERS m = ⟨m.st, .arrived⟩ := by
      simp [checkArrive, hphase, hdist, hlt]
    refine ⟨by rw [hca], ?_⟩
    intro r rs
    simp only [runCalls]
    rw [hca]
    simp [halted]
  · intro rs
    have h1 : runCalls TARGET_DISTANCE_METERS initMState (loginResp 0 (7/10000) :: rs)
        = ((runCalls TARGET_DISTANCE_METERS
            ⟨trackerAfterLogin (7/10000), .tracking sampleAtOrigin⟩ rs).1,
           CallKind.login ::
            (runCalls TARGET_DISTANCE_METERS
              ⟨trackerAfterLogin (7/10000), .tracking sampleAtOrigin⟩ rs).2) := by
      simp only [runCalls]
      rw [show checkArrive TARGET_DISTANCE_METERS initMState = initMState from rfl]
      rw [stepCall_login_origin (7/10000)]
      simp [halted, kindOf, initMState]
    cases rs with
    | nil =>
      rw [h1]
      simp [runCalls]
    | cons r2 rs2 =>
      rw [h1]
      have h2 : runCalls TARGET_DISTANCE_METERS
          ⟨trackerAfterLogin (7/10000), .tracking sampleAtOrigin⟩ (r2 :: rs2)
          = (⟨trackerAfterLogin (7/10000), .arrived⟩, []) := by
        simp only [runCalls]
        rw [checkArrive_78]
        simp [halted]
      rw [h2]
      exact ⟨rfl, fun _ => rfl⟩

/-- Witness for C1: the arrival rule applied at the concrete 78-meter
tracking state, and the concrete login-then-arrive run. -/
theorem claim_C1_witness :
    (checkArrive TARGET_DISTANCE_METERS mTracking78).phase = .arrived ∧
    runCalls TARGET_DISTANCE_METERS mTracking78 [inactiveResp]
      = (⟨mTracking78.st, .arrived⟩, []) ∧
    (runCalls TARGET_DISTANCE_METERS initMState
        (loginResp 0 (7/10000) :: [inactiveResp])).2 = [CallKind.login] := by
  refine ⟨(claim_C1_arrival.1 mTracking78 sampleAtOrigin _ rfl
      (distToTarget_origin (7/10000)) dist78_lt_target).1,
    (claim_C1_arrival.1 mTracking78 sampleAtOrigin _ rfl
      (distToTarget_origin (7/10000)) dist78_lt_target).2 inactiveResp [],
    (claim_C1_arrival.2 [inactiveResp]).1⟩

/-- C2 (failing run): after a login that places the bus 500 meters from the
stop, a `vehicledata` poll reporting the bus inactive clears the bus id and
yields an all-`None` sample, but the machine stays in the polling loop: the
next consumed response is another `vehicledata` fetch, not a login - the
tracker never returns to the `AWAITING_BUS` login-retry loop. -/
theorem claim_C2_no_relogin :
    runCalls TARGET_DISTANCE_METERS initMState
        [loginResp 0 (9/2000), inactiveResp, inactiveResp]
      = (⟨clearBus (trackerAfterLogin (9/2000)), .tracking noneRet⟩,
         [CallKind.login, CallKind.fetch, CallKind.fetch]) := by
  have e2 : stepCall ⟨trackerAfterLogin (9/2000), .tracking sampleAtOrigin⟩ inactiveResp
      = ⟨clearBus (trackerAfterLogin (9/2000)), .tracking noneRet⟩ := rfl
  have e3 : stepCall ⟨clearBus (trackerAfterLogin (9/2000)), .tracking noneRet⟩ inactiveResp
      = ⟨clearBus (trackerAfterLogin (9/2000)), .tracking noneRet⟩ := rfl
  have hca3 : checkArrive TARGET_DISTANCE_METERS
      ⟨clearBus (trackerAfterLogin (9/2000)), .tracking noneRet⟩
      = ⟨clearBus (trackerAfterLogin (9/2000)), .tracking noneRet⟩ := rfl
  simp only [runCalls]
  rw [show checkArrive TARGET_DISTANCE_METERS initMState = initMState from rfl,
    stepCall_login_origin (9/2000)]
  simp only [halted, kindOf, initMState]
  rw [checkArrive_500]
  simp only [halted, kindOf]
  rw [e2, hca3]
  simp only [halted, kindOf]
  rw [e3]
  simp
